import Mathlib

/-!
Verification of the state-synchronization core of the dig-the-tracker board
application: the change-feed reducer (`taskReducer`), the write-gateway
commands (`addTask`, `moveTask`, `reorderTask`, `addColumn`, `removeColumn`,
...), and the view projection (`getFilteredTasks`), shallowly embedded from
`src/context/TaskContext.tsx` and `src/types/index.ts`.

Modelling conventions: JS strings are `String`, numeric ids/positions are
`Int` (all position arithmetic in the source is integer-valued;
`Math.floor((a+b)/2)` on integers is `Int.fdiv (a+b) 2`), `null`/`undefined`
becomes `Option`, and the `Record<string, _>` maps become total functions
with the source's `?? []` / missing-key default folded in.  The compat
aliases produced by `mapTask` (`status` for `column_slug`, `parentId` for
`parent_id`) are modelled as derived accessors, since `mapTask` always sets
them from the same row field.  Store writes are not performed here; each
command is embedded as a pure function from its inputs and the store's
response(s) to the remote rows it would write and the actions it dispatches.
-/

namespace DigTracker

/-- Task entity, from the `Task` interface in `src/types/index.ts` (the
snake_case row fields; the compat aliases are the accessors below). -/
structure Task where
  id : String
  board_id : String
  number : Int
  title : String
  description : String
  column_slug : String
  priority : String
  position : Int
  assignee_name : String
  created_by_name : String
  created_by_id : Option String
  assignee_id : Option String
  tags : List String
  parent_id : Option String
  subtask_ids : List String
  due_date : Option String
  completed_at : Option String
  created_at : String
  updated_at : String
deriving DecidableEq, Inhabited

/-- Compat alias: `mapTask` sets `status` from the same row field as
`column_slug`, so `t.status` is definitionally `t.column_slug`. -/
def Task.status (t : Task) : String := t.column_slug

/-- Compat alias: `mapTask` sets `parentId` from the same row field as
`parent_id`. -/
def Task.parentId (t : Task) : Option String := t.parent_id

/-- Comment entity, from the `TaskComment` interface in `src/types/index.ts`. -/
structure TaskComment where
  id : String
  task_id : String
  board_id : String
  author_id : Option String
  author_name : String
  text : String
  created_at : String
deriving DecidableEq, Inhabited

/-- Column entity, from the `Column` interface in `src/types/index.ts`
(`mapColumn` sets `id := slug`). -/
structure Column where
  id : String
  board_id : String
  slug : String
  title : String
  color : String
  icon : String
  position : Int
  is_protected : Bool
deriving DecidableEq, Inhabited

/-- `DEFAULT_COLUMNS` from `src/types/index.ts` (icons elided to plain
strings; only slug/position/protection matter to the verified logic). -/
def DEFAULT_COLUMNS : List Column :=
  [ { id := "backlog", board_id := "", slug := "backlog", title := "Backlog",
      color := "#6b7280", icon := "backlog", position := 0, is_protected := true },
    { id := "todo", board_id := "", slug := "todo", title := "To Do",
      color := "#3b82f6", icon := "todo", position := 1000, is_protected := false },
    { id := "in-progress", board_id := "", slug := "in-progress", title := "In Progress",
      color := "#f59e0b", icon := "in-progress", position := 2000, is_protected := false },
    { id := "review", board_id := "", slug := "review", title := "Review",
      color := "#8b5cf6", icon := "review", position := 3000, is_protected := false },
    { id := "done", board_id := "", slug := "done", title := "Done",
      color := "#10b981", icon := "done", position := 4000, is_protected := true } ]

/-- `PROTECTED_COLUMN_IDS` from `src/types/index.ts`. -/
def PROTECTED_COLUMN_IDS : List String := ["backlog", "done"]

/-- Member profile entry, from the `MemberProfile` interface in
`src/context/TaskContext.tsx`. -/
structure MemberProfile where
  display_name : String
  avatar_color : String
deriving DecidableEq, Inhabited

/-- The reducer state (`TaskState` interface).  `commentsByTask` and
`memberProfiles` are JS records; they are modelled as total functions, with
the source's `?? []` default for a missing comments key folded in. -/
structure TaskState where
  tasks : List Task
  columns : List Column
  commentsByTask : String → List TaskComment
  memberProfiles : String → Option MemberProfile
  boardId : Option String
  loading : Bool
  error : Option String
  toast : Option String
  searchQuery : String
  filterPriority : String
  currentView : String
  showSubtasksOnBoard : Bool

/-- The `TaskAction` union from `src/context/TaskContext.tsx`. -/
inductive TaskAction where
  | SET_INITIAL_DATA (boardId : String) (tasks : List Task) (columns : List Column)
      (comments : List TaskComment) (memberProfiles : String → Option MemberProfile)
  | SET_LOADING (b : Bool)
  | SET_ERROR (e : Option String)
  | SET_TOAST (t : Option String)
  | REALTIME_TASK_INSERT (t : Task)
  | REALTIME_TASK_UPDATE (t : Task)
  | REALTIME_TASK_DELETE (id : String)
  | REALTIME_COMMENT_INSERT (c : TaskComment)
  | REALTIME_COMMENT_DELETE (id : String) (task_id : String)
  | REALTIME_COLUMN_INSERT (c : Column)
  | REALTIME_COLUMN_UPDATE (c : Column)
  | REALTIME_COLUMN_DELETE (slug : String)
  | SET_SEARCH (q : String)
  | SET_FILTER_PRIORITY (p : String)
  | SET_VIEW (v : String)
  | TOGGLE_SUBTASKS_ON_BOARD

/-- Ascending order on column `position`, the comparator
`(a, b) => a.position - b.position` of the source. -/
def colPosLe (a b : Column) : Prop := a.position ≤ b.position

instance : DecidableRel colPosLe := fun a b => Int.decLe a.position b.position

instance : IsTotal Column colPosLe := ⟨fun a b => Int.le_total a.position b.position⟩

instance : IsTrans Column colPosLe := ⟨fun _ _ _ h1 h2 => le_trans h1 h2⟩

/-- The `.sort((a, b) => a.position - b.position)` applied to columns in the
reducer's column-insert and column-update cases.  JS `sort` is stable, and a
stable sort's output is uniquely determined by the key order and the input
order, so the stable `insertionSort` is extensionally the same function. -/
def sortColumnsByPosition (l : List Column) : List Column := l.insertionSort colPosLe

/-- The `SET_INITIAL_DATA` comment-grouping loop: each comment is appended to
the bucket of its `task_id`. -/
def groupComments (comments : List TaskComment) : String → List TaskComment :=
  comments.foldl
    (fun m c => fun k => if k = c.task_id then m c.task_id ++ [c] else m k)
    (fun _ => [])

/-- The reducer `taskReducer(state, action)` from
`src/context/TaskContext.tsx`, case for case. -/
def taskReducer (state : TaskState) (action : TaskAction) : TaskState :=
  match action with
  | .SET_INITIAL_DATA boardId tasks columns comments memberProfiles =>
      { state with
        boardId := some boardId
        tasks := tasks
        columns := if columns.length > 0 then columns else DEFAULT_COLUMNS
        commentsByTask := groupComments comments
        memberProfiles := memberProfiles
        loading := false
        error := none }
  | .SET_LOADING b => { state with loading := b }
  | .SET_ERROR e => { state with error := e, loading := false }
  | .SET_TOAST t => { state with toast := t }
  | .REALTIME_TASK_INSERT t =>
      if state.tasks.any (fun x => x.id == t.id) then state
      else { state with tasks := state.tasks ++ [t] }
  | .REALTIME_TASK_UPDATE t =>
      { state with tasks := state.tasks.map (fun x => if x.id == t.id then t else x) }
  | .REALTIME_TASK_DELETE id =>
      { state with tasks := state.tasks.filter (fun x => !(x.id == id)) }
  | .REALTIME_COMMENT_INSERT c =>
      if (state.commentsByTask c.task_id).any (fun x => x.id == c.id) then state
      else { state with commentsByTask := fun k =>
               if k = c.task_id then state.commentsByTask c.task_id ++ [c]
               else state.commentsByTask k }
  | .REALTIME_COMMENT_DELETE id task_id =>
      { state with commentsByTask := fun k =>
          if k = task_id then (state.commentsByTask task_id).filter (fun c => !(c.id == id))
          else state.commentsByTask k }
  | .REALTIME_COLUMN_INSERT c =>
      if state.columns.any (fun x => x.slug == c.slug) then state
      else { state with columns := sortColumnsByPosition (state.columns ++ [c]) }
  | .REALTIME_COLUMN_UPDATE c =>
      { state with columns :=
          sortColumnsByPosition (state.columns.map (fun x => if x.slug == c.slug then c else x)) }
  | .REALTIME_COLUMN_DELETE slug =>
      { state with columns := state.columns.filter (fun c => !(c.slug == slug)) }
  | .SET_SEARCH q => { state with searchQuery := q }
  | .SET_FILTER_PRIORITY p => { state with filterPriority := p }
  | .SET_VIEW v => { state with currentView := v }
  | .TOGGLE_SUBTASKS_ON_BOARD =>
      { state with showSubtasksOnBoard := !state.showSubtasksOnBoard }

/-- The events the Change-Feed Reconciler delivers to the reducer: row-level
insert/update/delete for tasks, comments and columns. -/
def isReconcilerEvent : TaskAction → Bool
  | .REALTIME_TASK_INSERT _ => true
  | .REALTIME_TASK_UPDATE _ => true
  | .REALTIME_TASK_DELETE _ => true
  | .REALTIME_COMMENT_INSERT _ => true
  | .REALTIME_COMMENT_DELETE _ _ => true
  | .REALTIME_COLUMN_INSERT _ => true
  | .REALTIME_COLUMN_UPDATE _ => true
  | .REALTIME_COLUMN_DELETE _ => true
  | _ => false

/-- A Supabase store error as observed by the commands (`error.code`,
`error.message`). -/
structure StoreError where
  code : String
  message : String
deriving DecidableEq, Inhabited

/-- Dispatch performed by the common `if (error) dispatch SET_TOAST` tail of
the single-write commands (`updateTask`, `deleteTask`, `moveTask`,
`reorderTask`, `addComment`, `deleteComment`, `addColumn`, `removeColumn`). -/
def toastOnError (err : Option StoreError) : List TaskAction :=
  match err with
  | some e => [TaskAction.SET_TOAST (some e.message)]
  | none => []

/-- Retry bound `MAX_RETRIES` of `addTask`. -/
def MAX_RETRIES : Nat := 3

/-- The `addTask` retry loop, `for (attempt = 0; attempt < MAX_RETRIES;
attempt++)`.  `outcomes i` is the store's response to the insert of attempt
`i` (`none` = success).  The fuel argument is `MAX_RETRIES - attempt`, so
fuel 0 is the loop condition failing.  Returns the number of insert calls
issued and the dispatched actions. -/
def addTaskLoop (outcomes : Nat → Option StoreError) (attempt : Nat) :
    Nat → Nat × List TaskAction
  | 0 => (0, [])
  | fuel + 1 =>
    match outcomes attempt with
    | none => (1, [])
    | some e =>
      if e.code == "23505" && decide (attempt < MAX_RETRIES - 1) then
        ((addTaskLoop outcomes (attempt + 1) fuel).1 + 1,
         (addTaskLoop outcomes (attempt + 1) fuel).2)
      else (1, [TaskAction.SET_TOAST (some e.message)])

/-- The effect of one `addTask` invocation: the `if (!boardId) return` guard
followed by the retry loop.  Only the store interaction and dispatches are
relevant to the verified claims. -/
def addTaskRun (boardId : Option String) (outcomes : Nat → Option StoreError) :
    Nat × List TaskAction :=
  match boardId with
  | none => (0, [])
  | some _ => addTaskLoop outcomes 0 MAX_RETRIES

/-- Dispatches of `updateTask`: only a toast on store error. -/
def updateTaskRun (err : Option StoreError) : List TaskAction := toastOnError err

/-- Dispatches of `deleteTask`: only a toast on store error. -/
def deleteTaskRun (err : Option StoreError) : List TaskAction := toastOnError err

/-- Dispatches of `deleteComment`: only a toast on store error. -/
def deleteCommentRun (err : Option StoreError) : List TaskAction := toastOnError err

/-- Dispatches of `addComment`: the `if (!boardId) return` guard, then a
toast on store error. -/
def addCommentRun (boardId : Option String) (err : Option StoreError) : List TaskAction :=
  match boardId with
  | none => []
  | some _ => toastOnError err

/-- Dispatches of `reorderColumns`: the per-column position updates ignore
their store responses, so nothing is ever dispatched. -/
def reorderColumnsRun (_boardId : Option String) (_columns : List Column) :
    List TaskAction := []

/-- The `tasksInColumn.length > 0 ? Math.max(...) : 0` computation used by
`addTask` and `moveTask` to append at the end of a column. -/
def maxPositionOf (l : List Task) : Int :=
  match l.map Task.position with
  | [] => 0
  | p :: ps => ps.foldl max p

/-- The row patch `{ column_slug, position, completed_at }` written by
`moveTask` and `reorderTask`. -/
structure TaskUpdatePatch where
  column_slug : String
  position : Int
  completed_at : Option String
deriving DecidableEq, Inhabited

/-- The patch computed by `moveTask(id, status)`: end-of-column position, and
`completedAt = status === 'done' ? (task?.completed_at ?? now) : null`. -/
def moveTaskPatch (tasks : List Task) (id status nowTs : String) : TaskUpdatePatch :=
  let task := tasks.find? (fun t => t.id == id)
  { column_slug := status
    position :=
      maxPositionOf (tasks.filter (fun t => t.status == status && !(t.id == id))) + 1000
    completed_at :=
      if status == "done" then some ((task.bind Task.completed_at).getD nowTs) else none }

/-- The effect of `moveTask`: the update patch it writes, and a toast on
store error. -/
def moveTaskRun (tasks : List Task) (id status nowTs : String)
    (err : Option StoreError) : TaskUpdatePatch × List TaskAction :=
  (moveTaskPatch tasks id status nowTs, toastOnError err)

/-- How a task row looks after a `moveTask`/`reorderTask` patch is applied at
the store and echoed back through `mapTask` (which re-derives the `status`
alias from `column_slug`). -/
def applyPatch (t : Task) (p : TaskUpdatePatch) : Task :=
  { t with column_slug := p.column_slug, position := p.position,
           completed_at := p.completed_at }

/-- Ascending order on task `position` (`(a, b) => a.position -
b.position`). -/
def taskPosLe (a b : Task) : Prop := a.position ≤ b.position

instance : DecidableRel taskPosLe := fun a b => Int.decLe a.position b.position

instance : IsTotal Task taskPosLe := ⟨fun a b => Int.le_total a.position b.position⟩

instance : IsTrans Task taskPosLe := ⟨fun _ _ _ h1 h2 => le_trans h1 h2⟩

/-- The `tasksInColumn` of `reorderTask`: the other tasks of the target
column, sorted ascending by position (stable JS sort, modelled by the stable
`insertionSort`). -/
def sortedTasksInColumn (tasks : List Task) (taskId status : String) : List Task :=
  (tasks.filter (fun t => t.status == status && !(t.id == taskId))).insertionSort taskPosLe

/-- The new-position computation of `reorderTask` (fractional positions with
GAP = 1000; `Math.floor((a+b)/2)` on integers is `Int.fdiv`). -/
def reorderNewPosition (tasks : List Task) (taskId status : String)
    (targetIndex : Nat) : Int :=
  let tic := sortedTasksInColumn tasks taskId status
  let clamped := min targetIndex tic.length
  if tic.length = 0 then 1000
  else if clamped = 0 then (tic.headD default).position - 1000
  else if tic.length ≤ clamped then (tic.getLastD default).position + 1000
  else Int.fdiv ((tic.getD (clamped - 1) default).position
                  + (tic.getD clamped default).position) 2

/-- The effect of `reorderTask`: the patch it writes (same `completedAt` rule
as `moveTask`) and a toast on store error. -/
def reorderTaskRun (tasks : List Task) (taskId status nowTs : String)
    (targetIndex : Nat) (err : Option StoreError) :
    TaskUpdatePatch × List TaskAction :=
  let task := tasks.find? (fun t => t.id == taskId)
  ({ column_slug := status
     position := reorderNewPosition tasks taskId status targetIndex
     completed_at :=
       if status == "done" then some ((task.bind Task.completed_at).getD nowTs)
       else none },
   toastOnError err)

/-- JS `String.prototype.toLowerCase`, char by char (ASCII-faithful). -/
def strToLower (s : String) : String := String.mk (s.toList.map Char.toLower)

/-- ASCII model of the JS regex class `\w` (`[A-Za-z0-9_]`). -/
def isWordChar (c : Char) : Bool := c.isAlphanum || c == '_'

/-- ASCII model of the JS regex class `\s` (the source only ever slugifies
user-typed titles; non-ASCII whitespace is out of scope of the claims). -/
def isSpaceChar (c : Char) : Bool :=
  c == ' ' || c == '\t' || c == '\n' || c == '\r' || c == '\x0b' || c == '\x0c'

/-- JS `String.prototype.trim` on the char list. -/
def trimChars (l : List Char) : List Char :=
  ((l.dropWhile isSpaceChar).reverse.dropWhile isSpaceChar).reverse

/-- Collapse runs of `-` to a single `-` (the source's third replace step,
regex `-+`). -/
def collapseDashes : List Char → List Char
  | [] => []
  | [c] => [c]
  | c :: d :: rest =>
    if c == '-' && d == '-' then collapseDashes (d :: rest)
    else c :: collapseDashes (d :: rest)

/-- The `replace(/^-|-$/g, '')` step: drop one leading and one trailing
dash. -/
def dropEdgeDash (l : List Char) : List Char :=
  let l1 := match l with
    | '-' :: rest => rest
    | _ => l
  match l1.reverse with
  | '-' :: rest => rest.reverse
  | _ => l1

/-- `slugify` from `src/context/TaskContext.tsx`: lowercase, trim, delete
chars outside `[\w\s-]`, turn whitespace/underscore runs into `-`, collapse
dash runs, strip edge dashes.  Replacing each `[\s_]` char by `-` and then
collapsing dash runs once is equivalent to the source's two-step replacement
of runs of `[\s_]` by `-` followed by collapsing runs of `-`. -/
def slugify (text : String) : String :=
  let step1 := (strToLower text).toList
  let step2 := trimChars step1
  let step3 := step2.filter (fun c => isWordChar c || isSpaceChar c || c == '-')
  let step4 := step3.map (fun c => if isSpaceChar c || c == '_' then '-' else c)
  String.mk (dropEdgeDash (collapseDashes step4))

/-- The position computation of `addColumn`.  The `none` fall-through for a
missing `afterCol` is unreachable in the app (`afterColumnId` always names an
existing column; the JS `afterCol!.position` would throw there). -/
def addColumnPosition (columns : List Column) (afterColumnId : Option String) : Int :=
  match afterColumnId with
  | some aid =>
    match columns.find? (fun c => c.slug == aid) with
    | some afterCol =>
      let afterIdx := columns.indexOf afterCol
      match columns.get? (afterIdx + 1) with
      | some nextCol => Int.fdiv (afterCol.position + nextCol.position) 2
      | none => afterCol.position + 1000
    | none => 0
  | none =>
    match columns.find? (fun c => c.slug == "done") with
    | some doneCol =>
      let doneIdx := columns.indexOf doneCol
      match (if doneIdx = 0 then none else columns.get? (doneIdx - 1)) with
      | some prevCol => Int.fdiv (prevCol.position + doneCol.position) 2
      | none => doneCol.position - 1000
    | none => 4000 - 1000

/-- The column row `addColumn` inserts. -/
structure ColumnInsertRow where
  board_id : String
  slug : String
  title : String
  color : String
  icon : String
  position : Int
  is_protected : Bool
deriving DecidableEq, Inhabited

/-- The effect of one `addColumn` invocation: the board guard, the
empty-slug/duplicate-slug guard, then the insert and a toast on store
error. -/
def addColumnRun (columns : List Column) (boardId : Option String)
    (title color icon : String) (afterColumnId : Option String)
    (err : Option StoreError) : Option ColumnInsertRow × List TaskAction :=
  match boardId with
  | none => (none, [])
  | some bid =>
    let slug := slugify title
    if slug == "" || columns.any (fun c => c.slug == slug) then (none, [])
    else
      ((some { board_id := bid, slug := slug,
               title := String.mk (trimChars title.toList), color := color,
               icon := icon, position := addColumnPosition columns afterColumnId,
               is_protected := false } : Option ColumnInsertRow),
       toastOnError err)

/-- The effect of one `removeColumn` invocation: `remoteDelete` is the
`(board_id, slug)` key of the issued delete, `none` when the command returned
before any remote call. -/
structure RemoveColumnRun where
  remoteDelete : Option (String × String)
  dispatched : List TaskAction
deriving Inhabited

/-- `removeColumn` from `src/context/TaskContext.tsx`: protected guard,
non-empty-column guard, unknown-column guard, board guard, then the remote
delete and a toast on store error. -/
def removeColumnRun (tasks : List Task) (columns : List Column)
    (boardId : Option String) (columnId : String) (err : Option StoreError) :
    RemoveColumnRun :=
  if PROTECTED_COLUMN_IDS.contains columnId then ⟨none, []⟩
  else if tasks.any (fun t => t.status == columnId) then ⟨none, []⟩
  else
    match columns.find? (fun c => c.slug == columnId) with
    | none => ⟨none, []⟩
    | some _ =>
      match boardId with
      | none => ⟨none, []⟩
      | some bid =>
        match err with
        | none => ⟨some (bid, columnId), []⟩
        | some e => ⟨some (bid, columnId), [TaskAction.SET_TOAST (some e.message)]⟩

/-- `formatTaskKey` from `src/context/taskUtils.ts`. -/
def formatTaskKey (n : Int) : String := "DIG-" ++ toString n

/-- JS `String.prototype.includes`: substring containment. -/
def strIncludes (s q : String) : Bool := decide (q.toList <:+: s.toList)

/-- JS truthiness of an optional string (`null`/`undefined`/`""` are
falsy). -/
def jsTruthy (o : Option String) : Bool :=
  match o with
  | none => false
  | some s => !(s == "")

/-- The filter predicate of `getFilteredTasks`: column match, the
subtasks-on-board toggle, free-text search over title/description/task key,
and the priority filter, with the source's early-return structure. -/
def matchesFilters (st : TaskState) (status : String) (task : Task) : Bool :=
  if !(task.status == status) then false
  else if jsTruthy task.parentId && !st.showSubtasksOnBoard then false
  else if !(st.searchQuery == "")
          && !(strIncludes (strToLower task.title) (strToLower st.searchQuery))
          && !(strIncludes (strToLower task.description) (strToLower st.searchQuery))
          && !(strIncludes (strToLower (formatTaskKey task.number)) (strToLower st.searchQuery))
       then false
  else if !(st.filterPriority == "all") && !(task.priority == st.filterPriority)
       then false
  else true

/-- `getFilteredTasks(status)`: filter, then sort ascending by position. -/
def getFilteredTasks (st : TaskState) (status : String) : List Task :=
  (st.tasks.filter (matchesFilters st status)).insertionSort taskPosLe

/-- The provider's initial reducer state (`useReducer(taskReducer, {...})`). -/
def initialState : TaskState :=
  { tasks := [], columns := DEFAULT_COLUMNS, commentsByTask := fun _ => [],
    memberProfiles := fun _ => none, boardId := none, loading := true,
    error := none, toast := none, searchQuery := "", filterPriority := "all",
    currentView := "board", showSubtasksOnBoard := false }

/-- Concrete task used to evaluate the theorems on explicit inputs. -/
def sampleTask : Task :=
  { id := "t1", board_id := "b1", number := 1, title := "Design landing page",
    description := "hero section", column_slug := "todo", priority := "high",
    position := 1000, assignee_name := "Alice", created_by_name := "Alice",
    created_by_id := none, assignee_id := none, tags := ["design"],
    parent_id := none, subtask_ids := [], due_date := none,
    completed_at := none, created_at := "2026-01-01", updated_at := "2026-01-01" }

/-- Concrete second task (different id, in the terminal column). -/
def sampleDone : Task :=
  { sampleTask with
    id := "t2", number := 2, title := "Ship dark mode",
    column_slug := "done", position := 2000,
    completed_at := some "2026-02-01" }

/-- Concrete subtask (parent reference set). -/
def subtaskSample : Task :=
  { sampleTask with
    id := "t3", number := 3, title := "Hero mockup",
    parent_id := some "t1", position := 500 }

/-- Concrete comment. -/
def sampleComment : TaskComment :=
  { id := "c1", task_id := "t1", board_id := "b1", author_id := none,
    author_name := "Bob", text := "looks great", created_at := "2026-01-02" }

/-- Concrete loaded board state. -/
def boardState : TaskState :=
  { initialState with
    tasks := [sampleTask, sampleDone, subtaskSample],
    boardId := some "b1", loading := false, showSubtasksOnBoard := true }

/-- A store error with the uniqueness-violation code. -/
def uniqueViolation : StoreError :=
  { code := "23505", message := "duplicate key value violates unique constraint" }

/-- A store error with a non-uniqueness code. -/
def otherFailure : StoreError := { code := "42501", message := "permission denied" }

/-! ## Theorems -/

theorem TaskState.ext {s t : TaskState}
    (h1 : s.tasks = t.tasks) (h2 : s.columns = t.columns)
    (h3 : s.commentsByTask = t.commentsByTask)
    (h4 : s.memberProfiles = t.memberProfiles) (h5 : s.boardId = t.boardId)
    (h6 : s.loading = t.loading) (h7 : s.error = t.error)
    (h8 : s.toast = t.toast) (h9 : s.searchQuery = t.searchQuery)
    (h10 : s.filterPriority = t.filterPriority)
    (h11 : s.currentView = t.currentView)
    (h12 : s.showSubtasksOnBoard = t.showSubtasksOnBoard) : s = t := by
  cases s; cases t
  simp_all

theorem map_idem_of_pointwise {α : Type} (f : α → α) (hf : ∀ x, f (f x) = f x)
    (l : List α) : (l.map f).map f = l.map f := by
  rw [List.map_map]
  exact List.map_congr_left fun a _ => hf a

theorem filter_idem {α : Type} (p : α → Bool) (l : List α) :
    (l.filter p).filter p = l.filter p := by
  rw [List.filter_filter]
  exact List.filter_congr fun a _ => by cases hp : p a <;> simp [hp]

theorem map_fix_id {α : Type} (f : α → α) (l : List α) (h : ∀ x ∈ l, f x = x) :
    l.map f = l := by
  induction l with
  | nil => rfl
  | cons a rest ih =>
    simp only [List.map_cons, h a (by simp)]
    rw [ih fun x hx => h x (by simp [hx])]

theorem sortColumnsByPosition_idem (l : List Column) :
    sortColumnsByPosition (sortColumnsByPosition l) = sortColumnsByPosition l :=
  List.Sorted.insertionSort_eq (List.sorted_insertionSort colPosLe l)

theorem mem_sortColumnsByPosition {c : Column} {l : List Column} :
    c ∈ sortColumnsByPosition l ↔ c ∈ l :=
  (List.perm_insertionSort colPosLe l).mem_iff

/-- Pointwise idempotence of the reducer on reconciler events: re-applying
the event it just applied leaves the cache state unchanged. -/
theorem reducer_event_idem (s : TaskState) (e : TaskAction)
    (h : isReconcilerEvent e = true) :
    taskReducer (taskReducer s e) e = taskReducer s e := by
  cases e with
  | SET_INITIAL_DATA b t c cm mp => simp [isReconcilerEvent] at h
  | SET_LOADING b => simp [isReconcilerEvent] at h
  | SET_ERROR e => simp [isReconcilerEvent] at h
  | SET_TOAST t => simp [isReconcilerEvent] at h
  | SET_SEARCH q => simp [isReconcilerEvent] at h
  | SET_FILTER_PRIORITY p => simp [isReconcilerEvent] at h
  | SET_VIEW v => simp [isReconcilerEvent] at h
  | TOGGLE_SUBTASKS_ON_BOARD => simp [isReconcilerEvent] at h
  | REALTIME_TASK_INSERT t =>
      by_cases hmem : s.tasks.any (fun x => x.id == t.id) = true
      · simp [taskReducer, hmem]
      · have hfalse : s.tasks.any (fun x => x.id == t.id) = false := by
          simpa using hmem
        have happ : (s.tasks ++ [t]).any (fun x => x.id == t.id) = true := by
          simp
        simp [taskReducer, hfalse, happ]
  | REALTIME_TASK_UPDATE t =>
      have hf : ∀ x : Task,
          (fun x => if x.id == t.id then t else x)
            ((fun x => if x.id == t.id then t else x) x)
          = (fun x => if x.id == t.id then t else x) x := by
        intro x
        by_cases hx : (x.id == t.id) = true
        · simp [hx]
        · simp [hx]
      simp only [taskReducer]
      rw [map_idem_of_pointwise (fun x => if x.id == t.id then t else x) hf s.tasks]
  | REALTIME_TASK_DELETE id => simp [taskReducer, filter_idem]
  | REALTIME_COMMENT_INSERT c =>
      by_cases hmem :
          (s.commentsByTask c.task_id).any (fun x => x.id == c.id) = true
      · simp [taskReducer, hmem]
      · have hfalse :
            (s.commentsByTask c.task_id).any (fun x => x.id == c.id) = false := by
          simpa using hmem
        simp [taskReducer, hfalse]
  | REALTIME_COMMENT_DELETE id tid =>
      simp only [taskReducer]
      congr 1
      funext k
      by_cases hk : k = tid
      · subst hk
        simp [filter_idem]
      · simp [hk]
  | REALTIME_COLUMN_INSERT c =>
      by_cases hmem : s.columns.any (fun x => x.slug == c.slug) = true
      · simp [taskReducer, hmem]
      · have hfalse : s.columns.any (fun x => x.slug == c.slug) = false := by
          simpa using hmem
        have hmem2 :
            (sortColumnsByPosition (s.columns ++ [c])).any
              (fun x => x.slug == c.slug) = true :=
          List.any_eq_true.mpr
            ⟨c, mem_sortColumnsByPosition.mpr (by simp), by simp⟩
        simp [taskReducer, hfalse, hmem2]
  | REALTIME_COLUMN_UPDATE c =>
      have hfix : ∀ x ∈ sortColumnsByPosition
            (s.columns.map (fun x => if x.slug == c.slug then c else x)),
          (fun x => if x.slug == c.slug then c else x) x = x := by
        intro x hx
        obtain ⟨y, _, rfl⟩ :=
          List.mem_map.mp (mem_sortColumnsByPosition.mp hx)
        by_cases hy : (y.slug == c.slug) = true
        · simp [hy]
        · simp [hy]
      have hmap : (sortColumnsByPosition
            (s.columns.map (fun x => if x.slug == c.slug then c else x))).map
              (fun x => if x.slug == c.slug then c else x)
          = sortColumnsByPosition
              (s.columns.map (fun x => if x.slug == c.slug then c else x)) :=
        map_fix_id _ _ hfix
      simp only [taskReducer]
      rw [hmap, sortColumnsByPosition_idem]
  | REALTIME_COLUMN_DELETE slug => simp [taskReducer, filter_idem]

/-- C2: for every sequence of reconciler events applied through the reducer,
re-delivering any single event a second time immediately after its first
delivery yields the same final cache state as delivering it once. -/
theorem reconciler_duplicate_redelivery_idem (pre post : List TaskAction)
    (s : TaskState) (e : TaskAction) (h : isReconcilerEvent e = true) :
    (pre ++ e :: e :: post).foldl taskReducer s
      = (pre ++ e :: post).foldl taskReducer s := by
  rw [List.foldl_append, List.foldl_append]
  simp only [List.foldl_cons]
  rw [reducer_event_idem _ _ h]

/-- Witness for C2 at a concrete event and state. -/
theorem reconciler_duplicate_redelivery_idem_witness :
    isReconcilerEvent (TaskAction.REALTIME_TASK_INSERT sampleTask) = true ∧
    ([TaskAction.REALTIME_TASK_INSERT sampleTask,
      TaskAction.REALTIME_TASK_INSERT sampleTask].foldl taskReducer initialState
      = [TaskAction.REALTIME_TASK_INSERT sampleTask].foldl taskReducer initialState) :=
  ⟨by decide, by
    simpa using reconciler_duplicate_redelivery_idem [] [] initialState
      (TaskAction.REALTIME_TASK_INSERT sampleTask) (by decide)⟩

theorem addTaskLoop_succ (outcomes : Nat → Option StoreError)
    (attempt fuel : Nat) :
    addTaskLoop outcomes attempt (fuel + 1) =
      match outcomes attempt with
      | none => (1, [])
      | some e =>
        if e.code == "23505" && decide (attempt < MAX_RETRIES - 1) then
          ((addTaskLoop outcomes (attempt + 1) fuel).1 + 1,
           (addTaskLoop outcomes (attempt + 1) fuel).2)
        else (1, [TaskAction.SET_TOAST (some e.message)]) := rfl

theorem addTaskLoop_fst_le (outcomes : Nat → Option StoreError)
    (fuel attempt : Nat) : (addTaskLoop outcomes attempt fuel).1 ≤ fuel := by
  induction fuel generalizing attempt with
  | zero => simp [addTaskLoop]
  | succ n ih =>
    rw [addTaskLoop_succ]
    cases houtcome : outcomes attempt with
    | none => simp
    | some e =>
      by_cases hcode : (e.code == "23505" && decide (attempt < MAX_RETRIES - 1)) = true
      · simpa [hcode] using Nat.succ_le_succ (ih (attempt + 1))
      · simp [hcode]

/-- C1: an `addTask` whose insert hits the uniqueness violation (code 23505)
retries the read-then-insert sequence and surfaces the error only after all
`MAX_RETRIES = 3` attempts fail; a success or a non-uniqueness error on an
attempt stops the loop at that attempt, the latter surfacing immediately;
and no run ever issues more than `MAX_RETRIES` inserts. -/
theorem addTask_uniqueRetry_bounded (bid : String)
    (outcomes : Nat → Option StoreError) :
    (∀ e0, outcomes 0 = some e0 → e0.code ≠ "23505" →
       addTaskRun (some bid) outcomes
         = (1, [TaskAction.SET_TOAST (some e0.message)])) ∧
    (∀ e0 e1 e2, outcomes 0 = some e0 → outcomes 1 = some e1 →
       outcomes 2 = some e2 →
       e0.code = "23505" → e1.code = "23505" → e2.code = "23505" →
       addTaskRun (some bid) outcomes
         = (3, [TaskAction.SET_TOAST (some e2.message)])) ∧
    (outcomes 0 = none → addTaskRun (some bid) outcomes = (1, [])) ∧
    (∀ e0, outcomes 0 = some e0 → e0.code = "23505" → outcomes 1 = none →
       addTaskRun (some bid) outcomes = (2, [])) ∧
    (addTaskRun (some bid) outcomes).1 ≤ MAX_RETRIES := by
  have hrun : addTaskRun (some bid) outcomes = addTaskLoop outcomes 0 (2 + 1) := rfl
  refine ⟨?_, ?_, ?_, ?_, ?_⟩
  · intro e0 h0 hc
    have hb : (e0.code == "23505") = false := by
      simpa using hc
    rw [hrun, addTaskLoop_succ, h0]
    simp [hb]
  · intro e0 e1 e2 h0 h1 h2 hc0 hc1 hc2
    have hstep2 : addTaskLoop outcomes 2 (0 + 1)
        = (1, [TaskAction.SET_TOAST (some e2.message)]) := by
      rw [addTaskLoop_succ, h2]
      simp [MAX_RETRIES]
    have hstep1 : addTaskLoop outcomes 1 (1 + 1)
        = (2, [TaskAction.SET_TOAST (some e2.message)]) := by
      rw [addTaskLoop_succ, h1]
      simp only [hc1, MAX_RETRIES]
      norm_num
      refine ⟨?_, ?_⟩ <;>
        rw [show addTaskLoop outcomes 2 1
              = (1, [TaskAction.SET_TOAST (some e2.message)]) from hstep2]
    rw [hrun, addTaskLoop_succ, h0]
    simp only [hc0, MAX_RETRIES]
    norm_num
    refine ⟨?_, ?_⟩ <;>
      rw [show addTaskLoop outcomes 1 2
            = (2, [TaskAction.SET_TOAST (some e2.message)]) from hstep1]
  · intro h0
    rw [hrun, addTaskLoop_succ, h0]
  · intro e0 h0 hc0 h1
    have hstep1 : addTaskLoop outcomes 1 (1 + 1) = (1, []) := by
      rw [addTaskLoop_succ, h1]
    rw [hrun, addTaskLoop_succ, h0]
    simp only [hc0, MAX_RETRIES]
    norm_num
    refine ⟨?_, ?_⟩ <;>
      rw [show addTaskLoop outcomes 1 2 = (1, []) from hstep1]
  · rw [hrun]
    exact addTaskLoop_fst_le outcomes 3 0

/-- Witness for C1: three consecutive uniqueness violations surface the last
error after exactly three insert attempts. -/
theorem addTask_uniqueRetry_bounded_witness :
    (fun _ : Nat => some uniqueViolation) 0 = some uniqueViolation ∧
    uniqueViolation.code = "23505" ∧
    addTaskRun (some "b1") (fun _ => some uniqueViolation)
      = (3, [TaskAction.SET_TOAST (some uniqueViolation.message)]) :=
  ⟨rfl, rfl,
    (addTask_uniqueRetry_bounded "b1" (fun _ => some uniqueViolation)).2.1
      uniqueViolation uniqueViolation uniqueViolation rfl rfl rfl rfl rfl rfl⟩

/-- C3 counterexample: delivering a task-updated event for a task whose id is
absent from the cache does not add the task — the cache stays empty, refuting
the claim that such an event is treated as a late/derived insert. -/
theorem taskUpdate_absent_not_inserted_cex :
    initialState.tasks = [] ∧
    sampleTask ∉
      (taskReducer initialState (TaskAction.REALTIME_TASK_UPDATE sampleTask)).tasks ∧
    (taskReducer initialState (TaskAction.REALTIME_TASK_UPDATE sampleTask)).tasks
      = [] := by
  refine ⟨rfl, ?_, rfl⟩
  simp [taskReducer, initialState]

/-- C3 amended: a task-updated event replaces the task with the matching id
in place (membership of the payload, preservation of the others, unchanged
length); if no task with that id is present the event is a no-op — the
payload is not added and the state is unchanged. -/
theorem taskUpdate_replaces_or_noop (s : TaskState) (p : Task) :
    ((taskReducer s (TaskAction.REALTIME_TASK_UPDATE p)).tasks.length
       = s.tasks.length) ∧
    (∀ t ∈ s.tasks, t.id = p.id →
       p ∈ (taskReducer s (TaskAction.REALTIME_TASK_UPDATE p)).tasks) ∧
    (∀ t ∈ s.tasks, t.id ≠ p.id →
       t ∈ (taskReducer s (TaskAction.REALTIME_TASK_UPDATE p)).tasks) ∧
    ((∀ t ∈ s.tasks, t.id ≠ p.id) →
       taskReducer s (TaskAction.REALTIME_TASK_UPDATE p) = s) := by
  refine ⟨by simp [taskReducer], ?_, ?_, ?_⟩
  · intro t ht hid
    have : p = if t.id == p.id then p else t := by simp [hid]
    exact this ▸ by
      simp only [taskReducer]
      exact List.mem_map.mpr ⟨t, ht, by simp [hid]⟩
  · intro t ht hid
    have hb : (t.id == p.id) = false := by simpa using hid
    simp only [taskReducer]
    exact List.mem_map.mpr ⟨t, ht, by simp [hb]⟩
  · intro hall
    have hmap : s.tasks.map (fun x => if x.id == p.id then p else x) = s.tasks :=
      map_fix_id _ _ fun x hx => by simp [hall x hx]
    simp only [taskReducer, hmap]

/-- Witness for C3's amended theorem: an update event for an id not in the
cache leaves the state unchanged. -/
theorem taskUpdate_replaces_or_noop_witness :
    (∀ t ∈ boardState.tasks, t.id ≠ "t9") ∧
    taskReducer boardState
        (TaskAction.REALTIME_TASK_UPDATE { sampleTask with id := "t9" })
      = boardState :=
  ⟨by decide,
    (taskUpdate_replaces_or_noop boardState { sampleTask with id := "t9" }).2.2.2
      (by decide)⟩

/-- C4: with n >= 1 siblings in the target column (sorted ascending by
position), inserting at index 0 writes first - 1000, at index >= n writes
last + 1000, and at an interior index i writes the floor midpoint of the
siblings at indices i-1 and i. -/
theorem reorderTask_position_cases (tasks : List Task) (taskId status : String)
    (i : Nat) (h : sortedTasksInColumn tasks taskId status ≠ []) :
    (i = 0 → reorderNewPosition tasks taskId status i
       = ((sortedTasksInColumn tasks taskId status).headD default).position
           - 1000) ∧
    ((sortedTasksInColumn tasks taskId status).length ≤ i →
       reorderNewPosition tasks taskId status i
         = ((sortedTasksInColumn tasks taskId status).getLastD default).position
             + 1000) ∧
    (0 < i → i < (sortedTasksInColumn tasks taskId status).length →
       reorderNewPosition tasks taskId status i
         = Int.fdiv
             (((sortedTasksInColumn tasks taskId status).getD (i - 1)
                 default).position
              + ((sortedTasksInColumn tasks taskId status).getD i
                 default).position) 2) := by
  have hlen : (sortedTasksInColumn tasks taskId status).length ≠ 0 := by
    simpa [List.length_eq_zero] using h
  refine ⟨?_, ?_, ?_⟩
  · intro hi
    subst hi
    simp [reorderNewPosition, hlen]
  · intro hle
    have hmin : min i (sortedTasksInColumn tasks taskId status).length
        = (sortedTasksInColumn tasks taskId status).length :=
      Nat.min_eq_right hle
    simp [reorderNewPosition, hlen, hmin]
  · intro h1 h2
    have hmin : min i (sortedTasksInColumn tasks taskId status).length = i :=
      Nat.min_eq_left (Nat.le_of_lt h2)
    have hne : i ≠ 0 := Nat.pos_iff_ne_zero.mp h1
    have hnle : ¬ (sortedTasksInColumn tasks taskId status).length ≤ i :=
      Nat.not_le_of_lt h2
    simp [reorderNewPosition, hlen, hmin, hne, hnle]

/-- Witness for C4 at a concrete board: the interior insertion between
positions 500 and 1000 lands at their floor midpoint 750. -/
theorem reorderTask_position_cases_witness :
    sortedTasksInColumn boardState.tasks "t9" "todo" ≠ [] ∧
    (0 < 1 ∧ 1 < (sortedTasksInColumn boardState.tasks "t9" "todo").length) ∧
    reorderNewPosition boardState.tasks "t9" "todo" 1 = 750 := by
  refine ⟨by decide, ⟨by decide, by decide⟩, ?_⟩
  have := (reorderTask_position_cases boardState.tasks "t9" "todo" 1
    (by decide)).2.2 (by decide) (by decide)
  rw [this]
  decide

/-- C9: a target index strictly beyond the sibling count is clamped — the
task is placed at the end of the column (last + 1000, or 1000 when the
column is otherwise empty) rather than failing. -/
theorem reorderTask_clamps_to_end (tasks : List Task) (taskId status : String)
    (i : Nat) (h : (sortedTasksInColumn tasks taskId status).length < i) :
    reorderNewPosition tasks taskId status i
      = (if (sortedTasksInColumn tasks taskId status).length = 0 then 1000
         else ((sortedTasksInColumn tasks taskId status).getLastD
                 default).position + 1000) := by
  have hmin : min i (sortedTasksInColumn tasks taskId status).length
      = (sortedTasksInColumn tasks taskId status).length :=
    Nat.min_eq_right (Nat.le_of_lt h)
  by_cases hz : (sortedTasksInColumn tasks taskId status).length = 0
  · simp [reorderNewPosition, hz]
  · simp [reorderNewPosition, hz, hmin]

/-- Witness for C9: index 99 in a two-task column appends at last + 1000. -/
theorem reorderTask_clamps_to_end_witness :
    (sortedTasksInColumn boardState.tasks "t9" "todo").length < 99 ∧
    reorderNewPosition boardState.tasks "t9" "todo" 99
      = (if (sortedTasksInColumn boardState.tasks "t9" "todo").length = 0
         then 1000
         else ((sortedTasksInColumn boardState.tasks "t9" "todo").getLastD
                 default).position + 1000) :=
  ⟨by decide,
    reorderTask_clamps_to_end boardState.tasks "t9" "todo" 99 (by decide)⟩

theorem find?_replace (tasks : List Task) (id : String) (t p : Task)
    (h : tasks.find? (fun x => x.id == id) = some t) (hp : p.id = t.id) :
    (tasks.map (fun x => if x.id == p.id then p else x)).find?
        (fun x => x.id == id) = some p := by
  have htid : (t.id == id) = true := by
    have := List.find?_some h
    simpa using this
  induction tasks with
  | nil => simp at h
  | cons a rest ih =>
    by_cases ha : (a.id == id) = true
    · have hta : a = t := by
        have := List.find?_cons_of_pos (l := rest) (p := fun x => x.id == id) ha
        rw [this] at h
        exact Option.some.injEq _ _ ▸ h
      have hap : (a.id == p.id) = true := by
        rw [hp, hta]
        simp
      have hpid : (p.id == id) = true := by
        rw [hp, ← hta]
        exact ha
      simp only [List.map_cons, hap, if_true]
      exact List.find?_cons_of_pos _ hpid
    · have hfind : rest.find? (fun x => x.id == id) = some t := by
        have := List.find?_cons_of_neg (l := rest) (p := fun x => x.id == id)
          (by simpa using ha)
        rw [this] at h
        exact h
      have hne : (a.id == p.id) = false := by
        by_cases hq : (a.id == p.id) = true
        · exfalso
          have : (a.id == id) = true := by
            have h1 : a.id = p.id := by simpa using hq
            rw [h1, hp]
            exact htid
          exact absurd this (by simpa using ha)
        · simpa using hq
      simp only [List.map_cons, hne]
      rw [if_neg (by simp_all), List.find?_cons_of_neg _ (by simpa using ha)]
      exact ih hfind

theorem moveTaskPatch_done_completedAt (l : List Task) (id now : String) :
    (moveTaskPatch l id "done" now).completed_at
      = some (((l.find? (fun x => x.id == id)).bind Task.completed_at).getD now) := by
  simp [moveTaskPatch]

/-- C5: moving a task into the terminal 'done' column preserves an existing
completion timestamp and otherwise stamps the current time; moving into any
other column writes null; and after such a clearing move, moving the task
back into 'done' stamps the fresh current time (not the old timestamp). -/
theorem moveTask_completedAt_policy (tasks : List Task) (id s1 now1 now2 : String)
    (t : Task) (h : tasks.find? (fun x => x.id == id) = some t) :
    (∀ c, t.completed_at = some c →
       (moveTaskPatch tasks id "done" now1).completed_at = some c) ∧
    (t.completed_at = none →
       (moveTaskPatch tasks id "done" now1).completed_at = some now1) ∧
    (s1 ≠ "done" → (moveTaskPatch tasks id s1 now1).completed_at = none) ∧
    (s1 ≠ "done" →
       (moveTaskPatch
         ((taskReducer { initialState with tasks := tasks }
           (TaskAction.REALTIME_TASK_UPDATE
             (applyPatch t (moveTaskPatch tasks id s1 now1)))).tasks)
         id "done" now2).completed_at = some now2) := by
  refine ⟨?_, ?_, ?_, ?_⟩
  · intro c hc
    simp [moveTaskPatch, h, hc]
  · intro hc
    simp [moveTaskPatch, h, hc]
  · intro hs
    have hb : (s1 == "done") = false := by simpa using hs
    simp [moveTaskPatch, hb]
  · intro hs
    have hb : (s1 == "done") = false := by simpa using hs
    have hecho : (taskReducer { initialState with tasks := tasks }
        (TaskAction.REALTIME_TASK_UPDATE
          (applyPatch t (moveTaskPatch tasks id s1 now1)))).tasks
        = tasks.map (fun x =>
            if x.id == (applyPatch t (moveTaskPatch tasks id s1 now1)).id
            then applyPatch t (moveTaskPatch tasks id s1 now1) else x) := rfl
    have hfound := find?_replace tasks id t
      (applyPatch t (moveTaskPatch tasks id s1 now1)) h rfl
    have hcleared : (applyPatch t (moveTaskPatch tasks id s1 now1)).completed_at
        = none := by
      simp [applyPatch, moveTaskPatch, hb]
    rw [hecho, moveTaskPatch_done_completedAt, hfound]
    simp only [Option.some_bind, hcleared, Option.getD_none]

/-- Witness for C5: clearing by a move to 'review' then moving back to
'done' stamps the fresh time "T2". -/
theorem moveTask_completedAt_policy_witness :
    boardState.tasks.find? (fun x => x.id == "t2") = some sampleDone ∧
    ("review" : String) ≠ "done" ∧
    (moveTaskPatch
       ((taskReducer { initialState with tasks := boardState.tasks }
         (TaskAction.REALTIME_TASK_UPDATE
           (applyPatch sampleDone
             (moveTaskPatch boardState.tasks "t2" "review" "T1")))).tasks)
       "t2" "done" "T2").completed_at = some "T2" :=
  ⟨by decide, by decide,
    (moveTask_completedAt_policy boardState.tasks "t2" "review" "T1" "T2"
      sampleDone (by decide)).2.2.2 (by decide)⟩

/-- C6: removing a protected column never succeeds regardless of its task
count, and removing a non-protected column holding at least one task never
succeeds; both runs return before issuing any remote delete and dispatch
nothing (no error is reported). -/
theorem removeColumn_guard_noop (tasks : List Task) (columns : List Column)
    (boardId : Option String) (columnId : String) (err : Option StoreError) :
    (PROTECTED_COLUMN_IDS.contains columnId = true →
       (removeColumnRun tasks columns boardId columnId err).remoteDelete = none ∧
       (removeColumnRun tasks columns boardId columnId err).dispatched = []) ∧
    (PROTECTED_COLUMN_IDS.contains columnId = false →
     tasks.any (fun t => t.status == columnId) = true →
       (removeColumnRun tasks columns boardId columnId err).remoteDelete = none ∧
       (removeColumnRun tasks columns boardId columnId err).dispatched = []) := by
  constructor
  · intro h1
    have hm : columnId ∈ PROTECTED_COLUMN_IDS := by simpa using h1
    constructor <;> simp [removeColumnRun, hm]
  · intro h1 h2
    have hm : columnId ∉ PROTECTED_COLUMN_IDS := by simpa using h1
    have hany : ∃ x ∈ tasks, x.status = columnId := by simpa using h2
    constructor <;> simp [removeColumnRun, hm, hany]

/-- Witness for C6: deleting the protected 'done' column with a live board
and a would-be store success is still a complete no-op. -/
theorem removeColumn_guard_noop_witness :
    PROTECTED_COLUMN_IDS.contains "done" = true ∧
    (removeColumnRun boardState.tasks boardState.columns (some "b1") "done"
       none).remoteDelete = none ∧
    (removeColumnRun boardState.tasks boardState.columns (some "b1") "done"
       none).dispatched = [] :=
  ⟨by decide,
    (removeColumn_guard_noop boardState.tasks boardState.columns (some "b1")
      "done" none).1 (by decide)⟩

/-- C10: an `addColumn` whose title slugifies to the empty string, or whose
slug is already taken by a cached column, is a silent no-op: no remote insert
is attempted, nothing is dispatched, and folding the (empty) dispatch list
leaves any state unchanged. -/
theorem addColumn_guard_noop (columns : List Column) (boardId : Option String)
    (title color icon : String) (afterColumnId : Option String)
    (err : Option StoreError)
    (h : slugify title = ""
         ∨ columns.any (fun c => c.slug == slugify title) = true) :
    (addColumnRun columns boardId title color icon afterColumnId err).1 = none ∧
    (addColumnRun columns boardId title color icon afterColumnId err).2 = [] ∧
    (∀ s : TaskState,
       (addColumnRun columns boardId title color icon afterColumnId
          err).2.foldl taskReducer s = s) := by
  have hguard : ∀ bid, addColumnRun columns (some bid) title color icon
      afterColumnId err = (none, []) := by
    intro bid
    rcases h with h | h
    · simp [addColumnRun, h]
    · simp [addColumnRun, h]
  rcases boardId with _ | bid
  · exact ⟨rfl, rfl, fun s => rfl⟩
  · rw [hguard bid]
    exact ⟨rfl, rfl, fun s => rfl⟩

/-- Witness for C10: a punctuation-only title slugifies to the empty string
and the call is a complete no-op. -/
theorem addColumn_guard_noop_witness :
    slugify "  !!!  " = "" ∧
    (addColumnRun boardState.columns (some "b1") "  !!!  " "#fff" "icon" none
       none).1 = none ∧
    (addColumnRun boardState.columns (some "b1") "  !!!  " "#fff" "icon" none
       none).2 = [] :=
  ⟨by decide,
    ((addColumn_guard_noop boardState.columns (some "b1") "  !!!  " "#fff"
        "icon" none none (Or.inl (by decide))).1),
    ((addColumn_guard_noop boardState.columns (some "b1") "  !!!  " "#fff"
        "icon" none none (Or.inl (by decide))).2.1)⟩

theorem foldl_toastOnError (s : TaskState) (err : Option StoreError) :
    ∃ t, (toastOnError err).foldl taskReducer s = { s with toast := t } := by
  cases err with
  | none => exact ⟨s.toast, rfl⟩
  | some e => exact ⟨some e.message, rfl⟩

theorem addTaskLoop_dispatch_toast (outcomes : Nat → Option StoreError)
    (fuel attempt : Nat) (s : TaskState) :
    ∃ t, (addTaskLoop outcomes attempt fuel).2.foldl taskReducer s
      = { s with toast := t } := by
  induction fuel generalizing attempt with
  | zero => exact ⟨s.toast, rfl⟩
  | succ n ih =>
    rw [addTaskLoop_succ]
    cases houtcome : outcomes attempt with
    | none => exact ⟨s.toast, rfl⟩
    | some e =>
      by_cases hcode :
          (e.code == "23505" && decide (attempt < MAX_RETRIES - 1)) = true
      · obtain ⟨t, ht⟩ := ih (attempt + 1)
        refine ⟨t, ?_⟩
        simpa [hcode] using ht
      · refine ⟨some e.message, ?_⟩
        have hfalse :
            (e.code == "23505" && decide (attempt < MAX_RETRIES - 1)) = false := by
          simpa using hcode
        simp [hfalse, taskReducer]

/-- C7: no write command touches the cached `tasks`, `columns` or
`commentsByTask`: for every command and store response, folding everything
the command dispatches over any state either leaves the state unchanged or
changes only the `toast` error message — and a toast-only change never
alters the three cache fields. -/
theorem write_commands_cache_frame (s : TaskState) :
    (∀ bid outcomes, ∃ t,
       (addTaskRun bid outcomes).2.foldl taskReducer s = { s with toast := t }) ∧
    (∀ err, ∃ t,
       (updateTaskRun err).foldl taskReducer s = { s with toast := t }) ∧
    (∀ err, ∃ t,
       (deleteTaskRun err).foldl taskReducer s = { s with toast := t }) ∧
    (∀ tasks id status nowTs err, ∃ t,
       (moveTaskRun tasks id status nowTs err).2.foldl taskReducer s
         = { s with toast := t }) ∧
    (∀ tasks taskId status nowTs targetIndex err, ∃ t,
       (reorderTaskRun tasks taskId status nowTs targetIndex err).2.foldl
           taskReducer s = { s with toast := t }) ∧
    (∀ bid err, ∃ t,
       (addCommentRun bid err).foldl taskReducer s = { s with toast := t }) ∧
    (∀ err, ∃ t,
       (deleteCommentRun err).foldl taskReducer s = { s with toast := t }) ∧
    (∀ columns bid title color icon afterColumnId err, ∃ t,
       (addColumnRun columns bid title color icon afterColumnId err).2.foldl
           taskReducer s = { s with toast := t }) ∧
    (∀ tasks columns bid columnId err, ∃ t,
       (removeColumnRun tasks columns bid columnId err).dispatched.foldl
           taskReducer s = { s with toast := t }) ∧
    (∀ bid columns, ∃ t,
       (reorderColumnsRun bid columns).foldl taskReducer s
         = { s with toast := t }) ∧
    (∀ s' : TaskState, (∃ t, s' = { s with toast := t }) →
       s'.tasks = s.tasks ∧ s'.columns = s.columns ∧
       s'.commentsByTask = s.commentsByTask) := by
  refine ⟨?_, ?_, ?_, ?_, ?_, ?_, ?_, ?_, ?_, ?_, ?_⟩
  · intro bid outcomes
    cases bid with
    | none => exact ⟨s.toast, rfl⟩
    | some b => exact addTaskLoop_dispatch_toast outcomes MAX_RETRIES 0 s
  · intro err
    exact foldl_toastOnError s err
  · intro err
    exact foldl_toastOnError s err
  · intro tasks id status nowTs err
    exact foldl_toastOnError s err
  · intro tasks taskId status nowTs targetIndex err
    exact foldl_toastOnError s err
  · intro bid err
    cases bid with
    | none => exact ⟨s.toast, rfl⟩
    | some b => exact foldl_toastOnError s err
  · intro err
    exact foldl_toastOnError s err
  · intro columns bid title color icon afterColumnId err
    cases bid with
    | none => exact ⟨s.toast, rfl⟩
    | some b =>
      by_cases hguard : (slugify title == ""
          || columns.any (fun c => c.slug == slugify title)) = true
      · refine ⟨s.toast, ?_⟩
        simp [addColumnRun, hguard]
      · have hfalse : (slugify title == ""
            || columns.any (fun c => c.slug == slugify title)) = false := by
          simpa using hguard
        obtain ⟨t, ht⟩ := foldl_toastOnError s err
        refine ⟨t, ?_⟩
        simpa [addColumnRun, hfalse] using ht
  · intro tasks columns bid columnId err
    unfold removeColumnRun
    split
    · exact ⟨s.toast, rfl⟩
    split
    · exact ⟨s.toast, rfl⟩
    split
    · exact ⟨s.toast, rfl⟩
    split
    · exact ⟨s.toast, rfl⟩
    split
    · exact ⟨s.toast, rfl⟩
    · exact ⟨_, rfl⟩
  · intro bid columns
    exact ⟨s.toast, rfl⟩
  · rintro s' ⟨t, rfl⟩
    exact ⟨rfl, rfl, rfl⟩

/-- Witness for C7: a failing updateTask only sets the toast, and a
toast-only change keeps the three cache fields intact. -/
theorem write_commands_cache_frame_witness :
    (∃ t, (updateTaskRun (some otherFailure)).foldl taskReducer boardState
       = { boardState with toast := t }) ∧
    ((updateTaskRun (some otherFailure)).foldl taskReducer boardState).tasks
       = boardState.tasks ∧
    ((updateTaskRun (some otherFailure)).foldl taskReducer boardState).columns
       = boardState.columns :=
  ⟨(write_commands_cache_frame boardState).2.1 (some otherFailure),
    ((write_commands_cache_frame boardState).2.2.2.2.2.2.2.2.2.2
      ((updateTaskRun (some otherFailure)).foldl taskReducer boardState)
      ((write_commands_cache_frame boardState).2.1 (some otherFailure))).1,
    ((write_commands_cache_frame boardState).2.2.2.2.2.2.2.2.2.2
      ((updateTaskRun (some otherFailure)).foldl taskReducer boardState)
      ((write_commands_cache_frame boardState).2.1 (some otherFailure))).2.1⟩

theorem matchesFilters_imp (st : TaskState) (status : String) (t : Task)
    (h : matchesFilters st status t = true) :
    t.status = status ∧
    (jsTruthy t.parentId = true → st.showSubtasksOnBoard = true) := by
  by_cases h1 : (t.status == status) = true
  · refine ⟨by simpa using h1, ?_⟩
    intro hj
    by_cases hs : st.showSubtasksOnBoard = true
    · exact hs
    · exfalso
      have hs' : st.showSubtasksOnBoard = false := by simpa using hs
      simp [matchesFilters, h1, hj, hs'] at h
  · exfalso
    have h1' : (t.status == status) = false := by simpa using h1
    simp [matchesFilters, h1'] at h

/-- C8: `getFilteredTasks` returns exactly the cached tasks of the requested
column that pass the active filters (a permutation of the filtered cache,
with membership characterized), sorted ascending by `position`, and a task
whose parent reference is set only appears when the show-subtasks toggle is
enabled. -/
theorem getFilteredTasks_spec (st : TaskState) (status : String) :
    (getFilteredTasks st status).Perm
        (st.tasks.filter (matchesFilters st status)) ∧
    List.Sorted taskPosLe (getFilteredTasks st status) ∧
    (∀ t, t ∈ getFilteredTasks st status ↔
       t ∈ st.tasks ∧ matchesFilters st status t = true) ∧
    (∀ t ∈ getFilteredTasks st status, t.status = status) ∧
    (∀ t ∈ getFilteredTasks st status,
       jsTruthy t.parentId = true → st.showSubtasksOnBoard = true) := by
  have hperm : (getFilteredTasks st status).Perm
      (st.tasks.filter (matchesFilters st status)) :=
    List.perm_insertionSort taskPosLe _
  have hmem : ∀ t, t ∈ getFilteredTasks st status ↔
      t ∈ st.tasks ∧ matchesFilters st status t = true := by
    intro t
    rw [hperm.mem_iff, List.mem_filter]
  refine ⟨hperm, List.sorted_insertionSort taskPosLe _, hmem, ?_, ?_⟩
  · intro t ht
    exact (matchesFilters_imp st status t ((hmem t).mp ht).2).1
  · intro t ht
    exact (matchesFilters_imp st status t ((hmem t).mp ht).2).2

/-- Witness for C8 at a concrete state: with the toggle on, the subtask with
parent set appears in its column, ordered before the higher-positioned
task. -/
theorem getFilteredTasks_spec_witness :
    subtaskSample ∈ getFilteredTasks boardState "todo" ∧
    jsTruthy subtaskSample.parentId = true ∧
    boardState.showSubtasksOnBoard = true ∧
    (getFilteredTasks boardState "todo").map Task.id = ["t3", "t1"] :=
  ⟨by decide, by decide,
    (getFilteredTasks_spec boardState "todo").2.2.2.2 subtaskSample (by decide)
      (by decide),
    by decide⟩

end DigTracker
